import Mathlib

/-!
Shallow embedding of the DashboardProject backend core: the trend helper and
manual-update debounce from `backend/api/routes.py`, the year-over-year
calculator from `backend/services/fred_service.py`, and the reconciliation /
orchestration logic from `backend/services/data_aggregator.py`.

Python floats are modelled as rationals; `datetime.date` values as explicit
year/month/day triples; fallible Python code (uncaught exceptions) as
`Except`.  String-typed API payload fields that must be parsed with
`float(...)` or `datetime.strptime(...)` are modelled as `Option` values,
`none` standing for a value whose parse raises `ValueError` (such entries are
skipped by the surrounding `except (ValueError, KeyError)` handlers).
-/

namespace Dashboard

/-- A calendar date (`datetime.date`): year, month, day. -/
structure CalDate where
  year : Int
  month : Int
  day : Int
deriving DecidableEq, Repr

/-- Python `int(x)` on a float/rational: truncation toward zero. -/
def pyInt (q : ℚ) : ℤ :=
  if 0 ≤ q then ⌊q⌋ else -⌊-q⌋

/-- Round a rational to the nearest integer, ties to even — the rounding used
by Python's built-in `round`. -/
def roundHalfEven (x : ℚ) : ℤ :=
  let f : ℤ := ⌊x⌋
  let r : ℚ := x - f
  if r < 1/2 then f
  else if 1/2 < r then f + 1
  else if f % 2 = 0 then f else f + 1

/-- Python `round(x, 2)`: round to two decimal places (half-to-even). -/
def pyRound2 (x : ℚ) : ℚ :=
  (roundHalfEven (x * 100) : ℚ) / 100

/-- Direction of a trend, as produced by `calculate_trend` in
`backend/api/routes.py`. -/
inductive TrendDirection where
  | up
  | down
  | neutral
deriving DecidableEq, Repr

/-- The dictionary returned by `calculate_trend`:
`{'trend': ..., 'trend_direction': ...}`. -/
structure TrendResult where
  trend : Option ℚ
  trend_direction : TrendDirection
deriving DecidableEq, Repr

/-- `calculate_trend(current, previous)` from `backend/api/routes.py`:
absent input or a zero previous value yields `(None, 'neutral')`; otherwise
the percentage change is rounded to two decimals and the direction is taken
from the sign of the unrounded percentage change. -/
def calculate_trend (current previous : Option ℚ) : TrendResult :=
  match current, previous with
  | some c, some p =>
    if p = 0 then ⟨none, .neutral⟩
    else
      let trend_pct : ℚ := (c - p) / p * 100
      let direction : TrendDirection :=
        if 0 < trend_pct then .up else if trend_pct < 0 then .down else .neutral
      ⟨some (pyRound2 trend_pct), direction⟩
  | _, _ => ⟨none, .neutral⟩

/-- The trend helper as the specification words it (for comparison with
`calculate_trend`): the percentage is rounded first and the direction is
derived from the sign of the rounded value. -/
def calculate_trend_spec (current previous : Option ℚ) : TrendResult :=
  match current, previous with
  | some c, some p =>
    if p = 0 then ⟨none, .neutral⟩
    else
      let pct : ℚ := pyRound2 ((c - p) / p * 100)
      ⟨some pct,
       if 0 < pct then .up else if pct < 0 then .down else .neutral⟩
  | _, _ => ⟨none, .neutral⟩

/-- A raw observation dictionary as consumed by the aggregator and the YoY
calculator: `{'date': <string>, 'value': <string>}`.  `date` is `none` when
`datetime.strptime(obs['date'], '%Y-%m-%d')` would raise `ValueError`, and
`value` is `none` when `float(obs['value'])` would raise `ValueError` (or the
key is missing, raising `KeyError`); both exceptions are caught and the entry
skipped wherever these dictionaries are consumed. -/
structure RawObs where
  date : Option CalDate
  value : Option ℚ
deriving DecidableEq, Repr

/-- An output point of `calculate_cpi_yoy_change`: `{'date': ..., 'value':
round(..., 2)}`.  The date string is copied through unparsed, so it keeps the
parse status of the input observation. -/
structure YoYPoint where
  date : Option CalDate
  value : ℚ
deriving DecidableEq, Repr

/-- A Python exception that escapes `calculate_cpi_yoy_change`: its
`except (ValueError, KeyError)` clause does not catch `ZeroDivisionError`. -/
inductive PyExc where
  | zeroDivisionError
deriving DecidableEq, Repr

/-- One iteration of the loop in `calculate_cpi_yoy_change`:
`float` both values (a `ValueError` skips the point), then divide — a zero
baseline raises an uncaught `ZeroDivisionError`. -/
def yoyStep (current year_ago : RawObs) : Except PyExc (Option YoYPoint) :=
  match current.value, year_ago.value with
  | some current_value, some year_ago_value =>
    if year_ago_value = 0 then .error .zeroDivisionError
    else
      .ok (some ⟨current.date, pyRound2 ((current_value - year_ago_value) / year_ago_value * 100)⟩)
  | _, _ => .ok none

/-- `FREDService.calculate_cpi_yoy_change` from
`backend/services/fred_service.py`: returns `[]` when fewer than 12
observations; otherwise pairs each `observations[i]` (`i ≥ 12`) with
`observations[i-12]` in order. -/
def calculate_cpi_yoy_change (observations : List RawObs) :
    Except PyExc (List YoYPoint) :=
  if observations.length < 12 then .ok []
  else
    ((observations.drop 12).zip observations).foldlM
      (fun result pair => do
        let pt ← yoyStep pair.1 pair.2
        return result ++ pt.toList) []

/-- The cooldown window for manual updates (`UPDATE_COOLDOWN_SECONDS`). -/
def UPDATE_COOLDOWN_SECONDS : ℚ := 30

/-- The cooldown check at the head of `trigger_manual_update`
(`backend/api/routes.py`): with a recorded previous manual update and no
`force` flag, an elapsed time under the cooldown raises HTTP 429 carrying
`int(UPDATE_COOLDOWN_SECONDS - elapsed)` as the advertised wait.  `some w`
models that rejection; `none` means the request proceeds. -/
def check_cooldown (last_manual_update : Option ℚ) (now : ℚ) (force : Bool) :
    Option ℤ :=
  match last_manual_update with
  | some last =>
    if force then none
    else
      let elapsed := now - last
      if elapsed < UPDATE_COOLDOWN_SECONDS then
        some (pyInt (UPDATE_COOLDOWN_SECONDS - elapsed))
      else none
  | none => none

/-- Outcome of a `POST /update` request: rejected by the cooldown (HTTP 429
with the wait hint), completed with the orchestrator's status string, or
failed with HTTP 500 when the update raised. -/
inductive TriggerOutcome where
  | rejected (wait : ℤ)
  | completed (status : String)
  | failed (msg : String)
deriving DecidableEq, Repr

/-- `trigger_manual_update` from `backend/api/routes.py`, with the wall clock
and the orchestrator run passed in explicitly.  The state threaded through is
the module-level `last_manual_update` timestamp.  After the cooldown check
passes, the timestamp is assigned `now` first and the update runs afterwards;
the `except` branch re-raises as HTTP 500 without touching the timestamp. -/
def trigger_manual_update (last_manual_update : Option ℚ) (now : ℚ)
    (force : Bool) (run : Except String String) :
    TriggerOutcome × Option ℚ :=
  match check_cooldown last_manual_update now force with
  | some wait => (.rejected wait, last_manual_update)
  | none =>
    match run with
    | .ok status => (.completed status, some now)
    | .error msg => (.failed msg, some now)

/-- The four indicator columns of `EconomicIndicator`
(`backend/database/models.py`) that `update_economic_indicators` writes. -/
inductive FieldName where
  | global_gdp_growth
  | us_gdp_growth
  | federal_funds_rate
  | inflation_rate
deriving DecidableEq, Repr

/-- The per-date value dictionary built in `data_by_date`: each key is present
(`some`) or absent (`none`); present values are floats, never `None`. -/
structure Fields where
  global_gdp_growth : Option ℚ := none
  us_gdp_growth : Option ℚ := none
  federal_funds_rate : Option ℚ := none
  inflation_rate : Option ℚ := none
deriving DecidableEq, Repr

/-- The empty per-date dictionary (`data_by_date[date] = {}`). -/
def Fields.empty : Fields := {}

/-- Read one key of a per-date dictionary. -/
def Fields.get (fs : Fields) : FieldName → Option ℚ
  | .global_gdp_growth => fs.global_gdp_growth
  | .us_gdp_growth => fs.us_gdp_growth
  | .federal_funds_rate => fs.federal_funds_rate
  | .inflation_rate => fs.inflation_rate

/-- `fs[f] = v` on a per-date dictionary. -/
def Fields.set (fs : Fields) : FieldName → ℚ → Fields
  | .global_gdp_growth, v => { fs with global_gdp_growth := some v }
  | .us_gdp_growth, v => { fs with us_gdp_growth := some v }
  | .federal_funds_rate, v => { fs with federal_funds_rate := some v }
  | .inflation_rate, v => { fs with inflation_rate := some v }

/-- The `data_by_date` dictionary: insertion-ordered association list from
dates to sparse field maps (Python `dict` semantics, keys unique by
construction). -/
abbrev AccMap := List (CalDate × Fields)

/-- Dictionary lookup `data_by_date.get(d)`. -/
def lookupAcc : AccMap → CalDate → Option Fields
  | [], _ => none
  | (d', fs) :: rest, d => if d' = d then some fs else lookupAcc rest d

/-- `data_by_date.setdefault(d, {})[f] = v`: update the entry for `d` in
place if present, otherwise append a fresh singleton entry (dict insertion
order). -/
def setField : AccMap → CalDate → FieldName → ℚ → AccMap
  | [], d, f, v => [(d, Fields.empty.set f v)]
  | (d', fs) :: rest, d, f, v =>
    if d' = d then (d', fs.set f v) :: rest
    else (d', fs) :: setField rest d f v

/-- Python `l[-n:]`: the last `n` elements. -/
def lastN (n : Nat) (l : List α) : List α :=
  l.drop (l.length - n)

/-- One of the observation loops of `update_economic_indicators`: parse date
and value of each entry, skip it on `ValueError`/`KeyError`, and store the
value under `f`. -/
def processSeries (acc : AccMap) (obs : List RawObs) (f : FieldName) : AccMap :=
  obs.foldl
    (fun a o =>
      match o.date, o.value with
      | some d, some v => setField a d f v
      | _, _ => a)
    acc

/-- A global-GDP data point as produced by
`WorldBankService.get_global_gdp_growth`: `{'year': int, 'value': float}`
(the value is parsed and rounded by the adapter, so `float(item['value'])`
in the aggregator cannot fail). -/
structure GdpPoint where
  year : Int
  value : ℚ
deriving DecidableEq, Repr

/-- `datetime(year, 12, 31)` accepts years 1..9999 (`MINYEAR`/`MAXYEAR`);
outside that range it raises `ValueError` and the annual loop skips the
point. -/
def validYear (y : Int) : Prop := 1 ≤ y ∧ y ≤ 9999

instance : DecidablePred validYear := fun y => by
  unfold validYear; infer_instance

/-- `datetime(item['year'], 12, 31).date()`. -/
def annualDate (y : Int) : CalDate := ⟨y, 12, 31⟩

/-- The `latest_gdp_value` computation: `sorted(global_gdp, key=year,
reverse=True)[0]` under Python's stable sort is the earliest entry holding
the maximum year; `none` when the list is empty. -/
def latestGdpValue (l : List GdpPoint) : Option ℚ :=
  (l.foldl
    (fun best p =>
      match best with
      | none => some p
      | some b => if b.year < p.year then some p else some b)
    none).map (fun p => p.value)

/-- The annual-records loop: for each of the last five global-GDP points with
a representable year, store its value under `global_gdp_growth` at December
31 of its year. -/
def annualObs (acc : AccMap) (ps : List GdpPoint) : AccMap :=
  ps.foldl
    (fun a p =>
      if validYear p.year then
        setField a (annualDate p.year) .global_gdp_growth p.value
      else a)
    acc

/-- The body of the forward-fill loop: a per-date dictionary lacking
`global_gdp_growth` receives the latest value, any other is untouched. -/
def fillOne (v : ℚ) (fs : Fields) : Fields :=
  if fs.global_gdp_growth = none then { fs with global_gdp_growth := some v }
  else fs

/-- The forward-fill loop: when a latest value exists, every accumulator
entry lacking `global_gdp_growth` receives it. -/
def forwardFill (acc : AccMap) (latest : Option ℚ) : AccMap :=
  match latest with
  | none => acc
  | some v => acc.map (fun e => (e.1, fillOne v e.2))

/-- The whole `data_by_date` construction of `update_economic_indicators`:
federal funds rate (last 12), inflation YoY points (last 12), US GDP (last
8), the last five annual global-GDP records, then the forward fill. -/
def buildDataByDate (fed_rates inflation_data gdp_data : List RawObs)
    (global_gdp : List GdpPoint) : AccMap :=
  let acc1 := processSeries [] (lastN 12 fed_rates) .federal_funds_rate
  let acc2 := processSeries acc1 (lastN 12 inflation_data) .inflation_rate
  let acc3 := processSeries acc2 (lastN 8 gdp_data) .us_gdp_growth
  let acc4 := annualObs acc3 (lastN 5 global_gdp)
  forwardFill acc4 (latestGdpValue global_gdp)

/-- A persisted `EconomicIndicator` row (`backend/database/models.py`):
unique date key, four independently nullable indicator columns, and the
creation / modification timestamps. -/
structure IndicatorRecord where
  date : CalDate
  global_gdp_growth : Option ℚ := none
  us_gdp_growth : Option ℚ := none
  federal_funds_rate : Option ℚ := none
  inflation_rate : Option ℚ := none
  created_at : ℚ
  updated_at : ℚ
deriving DecidableEq, Repr

/-- Read one indicator column of a stored row. -/
def IndicatorRecord.get (r : IndicatorRecord) : FieldName → Option ℚ
  | .global_gdp_growth => r.global_gdp_growth
  | .us_gdp_growth => r.us_gdp_growth
  | .federal_funds_rate => r.federal_funds_rate
  | .inflation_rate => r.inflation_rate

/-- The update branch of the upsert: `for key, value in values.items():
setattr(existing, key, value)` overwrites exactly the keys present in the
incoming dictionary and then refreshes `updated_at`. -/
def mergeFields (r : IndicatorRecord) (vs : Fields) (now : ℚ) : IndicatorRecord :=
  { r with
    global_gdp_growth :=
      match vs.global_gdp_growth with
      | some v => some v
      | none => r.global_gdp_growth
    us_gdp_growth :=
      match vs.us_gdp_growth with
      | some v => some v
      | none => r.us_gdp_growth
    federal_funds_rate :=
      match vs.federal_funds_rate with
      | some v => some v
      | none => r.federal_funds_rate
    inflation_rate :=
      match vs.inflation_rate with
      | some v => some v
      | none => r.inflation_rate
    updated_at := now }

/-- The insert branch: `EconomicIndicator(date=date, **values)` — exactly
the incoming keys set, the other columns left at their null default, both
timestamps defaulting to the current time. -/
def newIndicatorRecord (d : CalDate) (vs : Fields) (now : ℚ) : IndicatorRecord :=
  { date := d
    global_gdp_growth := vs.global_gdp_growth
    us_gdp_growth := vs.us_gdp_growth
    federal_funds_rate := vs.federal_funds_rate
    inflation_rate := vs.inflation_rate
    created_at := now
    updated_at := now }

/-- `db.query(EconomicIndicator).filter(date == d).first()`. -/
def findByDate : List IndicatorRecord → CalDate → Option IndicatorRecord
  | [], _ => none
  | r :: rest, d => if r.date = d then some r else findByDate rest d

/-- One iteration of the upsert loop in `update_economic_indicators`: update
the first row matching the date in place, or append a fresh row
(`db.add`). -/
def upsertIndicator : List IndicatorRecord → CalDate → Fields → ℚ →
    List IndicatorRecord
  | [], d, vs, now => [newIndicatorRecord d vs now]
  | r :: rest, d, vs, now =>
    if r.date = d then mergeFields r vs now :: rest
    else r :: upsertIndicator rest d vs now

/-- The value a step of `update_all_data` stores into `results`: the
dictionary `{'status': 'success', 'count': n}` or
`{'status': 'error', 'message': m}`. -/
structure StepResult where
  status : String
  count : Option Nat := none
  message : Option String := none
deriving DecidableEq, Repr

/-- `DataAggregator.update_economic_indicators`: compute the inflation YoY
series (a `ZeroDivisionError` escaping `calculate_cpi_yoy_change` is caught
by the surrounding `except Exception`, which rolls the session back and
reports an error result), build `data_by_date`, upsert every entry, and
report success with the entry count.  Returns the step result together with
the resulting `economic_indicators` table. -/
def update_economic_indicators (fed_rates cpi_data gdp_data : List RawObs)
    (global_gdp : List GdpPoint) (db : List IndicatorRecord) (now : ℚ) :
    StepResult × List IndicatorRecord :=
  match calculate_cpi_yoy_change cpi_data with
  | .error _ =>
    ({ status := "error", message := some "float division by zero" }, db)
  | .ok inflation_data =>
    let data_by_date :=
      buildDataByDate fed_rates
        (inflation_data.map (fun p => ⟨p.date, some p.value⟩)) gdp_data global_gdp
    let db' := data_by_date.foldl (fun s e => upsertIndicator s e.1 e.2 now) db
    ({ status := "success", count := some data_by_date.length }, db')

/-- An OHLCV dictionary from `StockService.get_historical_data`: the adapter
always emits all six keys with numeric values, so only the date string can
fail to parse in the aggregator (skipping that row). -/
structure StockItem where
  date : Option CalDate
  open_field : ℚ
  high : ℚ
  low : ℚ
  close : ℚ
  volume : ℤ
deriving DecidableEq, Repr

/-- A persisted `StockData` row. -/
structure StockRecord where
  date : CalDate
  open_price : ℚ
  close_price : ℚ
  high_price : ℚ
  low_price : ℚ
  volume : ℤ
  market_cap : ℚ
  updated_at : ℚ
deriving DecidableEq, Repr

/-- NVIDIA shares outstanding, in billions (`shares_outstanding = 24.6`). -/
def shares_outstanding : ℚ := 246/10

/-- Full-row replace upsert of one OHLCV point keyed by date. -/
def upsertStock : List StockRecord → CalDate → StockItem → ℚ → ℚ →
    List StockRecord
  | [], d, item, market_cap, now =>
    [{ date := d
       open_price := item.open_field
       close_price := item.close
       high_price := item.high
       low_price := item.low
       volume := item.volume
       market_cap := market_cap
       updated_at := now }]
  | r :: rest, d, item, market_cap, now =>
    if r.date = d then
      { r with
        open_price := item.open_field
        close_price := item.close
        high_price := item.high
        low_price := item.low
        volume := item.volume
        market_cap := market_cap
        updated_at := now } :: rest
    else r :: upsertStock rest d item market_cap now

/-- `DataAggregator.update_stock_data`: an empty fetched sequence is reported
as an error result (`'No stock data available from Alpha Vantage'`);
otherwise each row with a parsable date is upserted with
`market_cap = round(close * shares_outstanding, 2)` and the step reports
success with the processed count. -/
def update_stock_data (stock_data : List StockItem) (db : List StockRecord)
    (now : ℚ) : StepResult × List StockRecord :=
  if stock_data.isEmpty then
    ({ status := "error", message := some "No stock data available from Alpha Vantage" }, db)
  else
    let step := fun (s : Nat × List StockRecord) (item : StockItem) =>
      match item.date with
      | some d =>
        (s.1 + 1,
         upsertStock s.2 d item (pyRound2 (item.close * shares_outstanding)) now)
      | none => s
    let out := stock_data.foldl step (0, db)
    ({ status := "success", count := some out.1 }, out.2)

/-- The orchestrator's view of one step invocation inside its
`try`/`except`: either the step returned a result dictionary, or it raised
an exception whose message is caught and recorded. -/
abbrev StepOutcome := Except String StepResult

/-- The summary assembled by `update_all_data`: the two per-step results
(`None` when the step raised), the caught-exception messages, and the overall
status string. -/
structure UpdateSummary where
  economic_indicators : Option StepResult
  stock_data : Option StepResult
  errors : List String
  status : String
deriving DecidableEq, Repr

/-- `DataAggregator.update_all_data`, parametrized by the outcome of its two
step invocations (each guarded by its own `try`/`except` that appends a
labeled message to `errors`).  Overall status: `'success'` when `errors` is
empty, otherwise `'partial'` when some step's result dictionary carries
`status == 'success'`, otherwise `'failed'`.  (Wall-clock timing and the
audit-log row, which no stated property depends on, are elided.) -/
def update_all_data (econ stock : StepOutcome) : UpdateSummary :=
  let econRes : Option StepResult := econ.toOption
  let stockRes : Option StepResult := stock.toOption
  let errors :=
    (match econ with
     | .error e => ["Economic indicators: " ++ e]
     | .ok _ => []) ++
    (match stock with
     | .error e => ["Stock data: " ++ e]
     | .ok _ => [])
  let anySuccess :=
    (econRes.elim false (fun r => r.status = "success")) ||
    (stockRes.elim false (fun r => r.status = "success"))
  let status :=
    if errors.isEmpty then "success"
    else if anySuccess then "partial" else "failed"
  { economic_indicators := econRes
    stock_data := stockRes
    errors := errors
    status := status }

/-- A stored row with its modification timestamp blanked, for comparing
store states modulo `updated_at`. -/
def stripUpdatedAt (r : IndicatorRecord) : IndicatorRecord :=
  { r with updated_at := 0 }

/-- The `global_gdp_growth` entry recorded in the accumulator for a date
(`none` when the date is absent or the field unset). -/
def gdpAt (acc : AccMap) (d : CalDate) : Option ℚ :=
  match lookupAcc acc d with
  | some fs => fs.global_gdp_growth
  | none => none

/-- The exact-date annual value the annual-records loop leaves at a date:
the last point in the list whose (representable) year places it at that
December 31 (last write wins). -/
def annualValueAt : List GdpPoint → CalDate → Option ℚ
  | [], _ => none
  | p :: ps, d =>
    (annualValueAt ps d).or
      (if validYear p.year ∧ annualDate p.year = d then some p.value else none)

/-- The step invocation raised an exception that `update_all_data` caught
and recorded into its `errors` list. -/
def stepRaised (o : StepOutcome) : Prop :=
  ∃ e, o = Except.error e

/-- The step invocation returned a result dictionary reporting
`status == 'success'`. -/
def stepReportedSuccess (o : StepOutcome) : Prop :=
  ∃ r, o = Except.ok r ∧ r.status = "success"

/-- C7 counterexample: at `current = 200 + 1/500`, `previous = 200` the
unrounded percentage change is `1/1000`, which rounds to `0`; the code reports
direction `up` (sign of the unrounded value) while the claim's rule (sign of
the rounded `pct`, with `0` neutral) demands `neutral`, so the returned pair
differs from the claimed one. -/
theorem calculate_trend_cex :
    calculate_trend (some (100001/500)) (some 200) =
      ⟨some 0, TrendDirection.up⟩ ∧
    calculate_trend_spec (some (100001/500)) (some 200) =
      ⟨some 0, TrendDirection.neutral⟩ ∧
    calculate_trend (some (100001/500)) (some 200) ≠
      calculate_trend_spec (some (100001/500)) (some 200) := by
  have h1 : calculate_trend (some (100001/500)) (some 200) =
      ⟨some 0, TrendDirection.up⟩ := by
    norm_num [calculate_trend, pyRound2, roundHalfEven]
  have h2 : calculate_trend_spec (some (100001/500)) (some 200) =
      ⟨some 0, TrendDirection.neutral⟩ := by
    norm_num [calculate_trend_spec, pyRound2, roundHalfEven]
  refine ⟨h1, h2, ?_⟩
  rw [h1, h2]
  simp

/-- C7 (amended): the trend calculator returns `(null, neutral)` when either
input is absent or the previous value is exactly zero (in particular
`trend(50, 0)`); otherwise it returns the percentage change rounded to two
decimals, with the direction taken from the sign of the *unrounded*
percentage change. -/
theorem calculate_trend_characterization (c p : ℚ) (hp : p ≠ 0) :
    calculate_trend none (some p) = ⟨none, TrendDirection.neutral⟩ ∧
    calculate_trend (some c) none = ⟨none, TrendDirection.neutral⟩ ∧
    calculate_trend (none : Option ℚ) none = ⟨none, TrendDirection.neutral⟩ ∧
    calculate_trend (some c) (some 0) = ⟨none, TrendDirection.neutral⟩ ∧
    calculate_trend (some c) (some p) =
      ⟨some (pyRound2 ((c - p) / p * 100)),
       if 0 < (c - p) / p * 100 then TrendDirection.up
       else if (c - p) / p * 100 < 0 then TrendDirection.down
       else TrendDirection.neutral⟩ := by
  refine ⟨rfl, rfl, rfl, by simp [calculate_trend], ?_⟩
  simp [calculate_trend, hp]

/-- Witness for the amended C7 theorem at `current = 50`, `previous = 25`. -/
theorem calculate_trend_characterization_witness :
    calculate_trend none (some (25 : ℚ)) = ⟨none, TrendDirection.neutral⟩ ∧
    calculate_trend (some (50 : ℚ)) none = ⟨none, TrendDirection.neutral⟩ ∧
    calculate_trend (none : Option ℚ) none = ⟨none, TrendDirection.neutral⟩ ∧
    calculate_trend (some (50 : ℚ)) (some 0) = ⟨none, TrendDirection.neutral⟩ ∧
    calculate_trend (some (50 : ℚ)) (some 25) =
      ⟨some (pyRound2 ((50 - 25) / 25 * 100)),
       if 0 < ((50 : ℚ) - 25) / 25 * 100 then TrendDirection.up
       else if ((50 : ℚ) - 25) / 25 * 100 < 0 then TrendDirection.down
       else TrendDirection.neutral⟩ :=
  calculate_trend_characterization 50 25 (by norm_num)

/-- C2: a 13-observation input whose 12-periods-ago baseline is zero makes
`calculate_cpi_yoy_change` raise an uncaught `ZeroDivisionError` (its
`except` clause lists only `ValueError` and `KeyError`), aborting the whole
computation instead of skipping the point as specified. -/
theorem cpi_yoy_zero_baseline_raises :
    calculate_cpi_yoy_change
      (⟨some ⟨2023, 1, 1⟩, some 0⟩ ::
        (List.replicate 11 (⟨some ⟨2023, 2, 1⟩, some 100⟩ : RawObs) ++
          [⟨some ⟨2024, 1, 1⟩, some 110⟩])) =
    Except.error PyExc.zeroDivisionError := by
  rfl

/-- C3 counterexample: `update_stock_data` invoked with the empty fetched
sequence reports an error-status result, not success. -/
theorem update_stock_data_empty_cex :
    (update_stock_data [] [] 0).1.status = "error" ∧
    (update_stock_data [] [] 0).1.status ≠ "success" := by
  refine ⟨rfl, ?_⟩
  decide

/-- C3 (amended): the indicator reconciliation step treats empty fetched
sequences as "no data available" (success, zero upserts, store unchanged),
but the stock reconciliation step reports an error status with message
`'No stock data available from Alpha Vantage'` on an empty fetched sequence
(performing no upserts and leaving the store unchanged). -/
theorem empty_fetch_step_results (dbS : List StockRecord)
    (dbE : List IndicatorRecord) (now : ℚ) :
    update_stock_data [] dbS now =
      ({ status := "error", count := none,
         message := some "No stock data available from Alpha Vantage" }, dbS) ∧
    update_economic_indicators [] [] [] [] dbE now =
      ({ status := "success", count := some 0, message := none }, dbE) := by
  exact ⟨rfl, rfl⟩

/-- A forced request never trips the cooldown check. -/
lemma check_cooldown_force (l : Option ℚ) (n : ℚ) :
    check_cooldown l n true = none := by
  cases l <;> simp [check_cooldown]

/-- A request that passes the cooldown check stores the request time as the
new `last_manual_update`, whatever the update run does. -/
lemma trigger_pass_snd {last : Option ℚ} {now : ℚ} {force : Bool}
    (run : Except String String)
    (hpass : check_cooldown last now force = none) :
    (trigger_manual_update last now force run).2 = some now := by
  unfold trigger_manual_update
  rw [hpass]
  cases run <;> rfl

/-- A non-forced request arriving `t` seconds (`0 ≤ t < 30`) after the
stored timestamp is rejected with wait hint `int(30 - t)` and leaves the
timestamp unchanged. -/
lemma trigger_within_cooldown (s t : ℚ) (run : Except String String)
    (h0 : 0 ≤ t) (h30 : t < 30) :
    trigger_manual_update (some s) (s + t) false run =
      (TriggerOutcome.rejected (pyInt (UPDATE_COOLDOWN_SECONDS - t)), some s) := by
  have he : s + t - s = t := by ring
  simp only [trigger_manual_update, check_cooldown, UPDATE_COOLDOWN_SECONDS, he,
    Bool.false_eq_true, if_false, if_pos h30]

/-- C8: once a manual trigger has passed the cooldown check at time `now`, a
second non-forced trigger `t` seconds later (`0 ≤ t < 30`) is rejected
outright with the wait hint `int(30 - t)` — `25` seconds for triggers 5
seconds apart — and the stored timestamp is not advanced by the rejected
request; a trigger carrying the force flag is never rejected by the
cooldown. -/
theorem manual_update_debounce (last : Option ℚ) (now t : ℚ) (force1 : Bool)
    (run1 run2 : Except String String)
    (hpass : check_cooldown last now force1 = none)
    (h0 : 0 ≤ t) (h30 : t < 30) :
    trigger_manual_update (trigger_manual_update last now force1 run1).2
        (now + t) false run2 =
      (TriggerOutcome.rejected (pyInt (UPDATE_COOLDOWN_SECONDS - t)),
       (trigger_manual_update last now force1 run1).2) ∧
    ∀ (l : Option ℚ) (n : ℚ) (r : Except String String) (w : ℤ),
      (trigger_manual_update l n true r).1 ≠ TriggerOutcome.rejected w := by
  constructor
  · rw [trigger_pass_snd run1 hpass, trigger_within_cooldown now t run2 h0 h30]
  · intro l n r w
    unfold trigger_manual_update
    rw [check_cooldown_force]
    cases r <;> simp

/-- Witness for C8 at `t = 5` seconds: the second trigger is rejected with a
wait hint of `int(30 - 5) = 25` seconds. -/
theorem manual_update_debounce_witness :
    trigger_manual_update
        (trigger_manual_update none 0 false (Except.ok "success")).2
        ((0 : ℚ) + 5) false (Except.ok "success") =
      (TriggerOutcome.rejected (pyInt (UPDATE_COOLDOWN_SECONDS - 5)),
       (trigger_manual_update none 0 false (Except.ok "success")).2) ∧
    ∀ (l : Option ℚ) (n : ℚ) (r : Except String String) (w : ℤ),
      (trigger_manual_update l n true r).1 ≠ TriggerOutcome.rejected w :=
  manual_update_debounce none 0 5 false (Except.ok "success")
    (Except.ok "success") rfl (by norm_num) (by norm_num)

/-- C10: every manual request that passes the cooldown check — forced or
not — stores the request time as the cooldown timestamp regardless of
whether the update run succeeds or raises, so a later non-forced trigger
within the 30-second window is rejected. -/
theorem cooldown_timestamp_always_set (last : Option ℚ) (now t : ℚ)
    (force : Bool) (run run2 : Except String String)
    (hpass : check_cooldown last now force = none)
    (h0 : 0 ≤ t) (h30 : t < 30) :
    (trigger_manual_update last now force run).2 = some now ∧
    (trigger_manual_update (trigger_manual_update last now force run).2
        (now + t) false run2).1 =
      TriggerOutcome.rejected (pyInt (UPDATE_COOLDOWN_SECONDS - t)) := by
  have hs := trigger_pass_snd run hpass
  refine ⟨hs, ?_⟩
  rw [hs, trigger_within_cooldown now t run2 h0 h30]

/-- Witness for C10: a forced trigger whose update run raises still starts a
cooldown that blocks a non-forced trigger 5 seconds later. -/
theorem cooldown_timestamp_always_set_witness :
    (trigger_manual_update (some 100) 101 true (Except.error "update failed")).2
      = some 101 ∧
    (trigger_manual_update
        (trigger_manual_update (some 100) 101 true (Except.error "update failed")).2
        ((101 : ℚ) + 5) false (Except.ok "success")).1 =
      TriggerOutcome.rejected (pyInt (UPDATE_COOLDOWN_SECONDS - 5)) :=
  cooldown_timestamp_always_set (some 100) 101 5 true (Except.error "update failed")
    (Except.ok "success") rfl (by norm_num) (by norm_num)

lemma newIndicatorRecord_date (d : CalDate) (vs : Fields) (t : ℚ) :
    (newIndicatorRecord d vs t).date = d := rfl

lemma mergeFields_date (r : IndicatorRecord) (vs : Fields) (t : ℚ) :
    (mergeFields r vs t).date = r.date := rfl

lemma mergeFields_created_at (r : IndicatorRecord) (vs : Fields) (t : ℚ) :
    (mergeFields r vs t).created_at = r.created_at := rfl

/-- Merging overwrites exactly the keys present in the incoming dictionary. -/
lemma mergeFields_get (r : IndicatorRecord) (vs : Fields) (t : ℚ)
    (f : FieldName) :
    (mergeFields r vs t).get f =
      match vs.get f with
      | some v => some v
      | none => r.get f := by
  cases f <;> rfl

/-- A freshly inserted row carries exactly the incoming keys. -/
lemma newIndicatorRecord_get (d : CalDate) (vs : Fields) (t : ℚ)
    (f : FieldName) :
    (newIndicatorRecord d vs t).get f = vs.get f := by
  cases f <;> rfl

/-- Re-merging the same dictionary changes nothing but the modification
timestamp. -/
lemma stripUpdatedAt_merge_merge (r : IndicatorRecord) (vs : Fields)
    (t1 t2 : ℚ) :
    stripUpdatedAt (mergeFields (mergeFields r vs t1) vs t2) =
      stripUpdatedAt (mergeFields r vs t1) := by
  obtain ⟨g, u, f, i⟩ := vs
  cases g <;> cases u <;> cases f <;> cases i <;> rfl

/-- Merging a dictionary into the row it freshly created changes nothing but
the modification timestamp. -/
lemma stripUpdatedAt_merge_new (d : CalDate) (vs : Fields) (t1 t2 : ℚ) :
    stripUpdatedAt (mergeFields (newIndicatorRecord d vs t1) vs t2) =
      stripUpdatedAt (newIndicatorRecord d vs t1) := by
  obtain ⟨g, u, f, i⟩ := vs
  cases g <;> cases u <;> cases f <;> cases i <;> rfl

/-- C5: the indicator upsert is idempotent — applying the same
`(date, fields)` twice, from any starting store state, leaves the same
stored rows as applying it once, up to the modification timestamp. -/
theorem indicator_upsert_idempotent (db : List IndicatorRecord) (d : CalDate)
    (vs : Fields) (t1 t2 : ℚ) :
    (upsertIndicator (upsertIndicator db d vs t1) d vs t2).map stripUpdatedAt =
      (upsertIndicator db d vs t1).map stripUpdatedAt := by
  induction db with
  | nil =>
    simp [upsertIndicator, newIndicatorRecord_date, stripUpdatedAt_merge_new]
  | cons r rest ih =>
    by_cases hr : r.date = d
    · simp [upsertIndicator, hr, mergeFields_date, stripUpdatedAt_merge_merge]
    · simp [upsertIndicator, hr, ih]

/-- The per-date lookup after an upsert: the upserted date now maps to the
merged (or fresh) row, every other date is untouched. -/
lemma findByDate_upsert (db : List IndicatorRecord) (d : CalDate)
    (vs : Fields) (t : ℚ) (d'' : CalDate) :
    findByDate (upsertIndicator db d vs t) d'' =
      if d'' = d then
        some (match findByDate db d with
              | some r => mergeFields r vs t
              | none => newIndicatorRecord d vs t)
      else findByDate db d'' := by
  induction db with
  | nil =>
    by_cases h : d'' = d
    · subst h
      simp [upsertIndicator, findByDate, newIndicatorRecord_date]
    · have h' : ¬d = d'' := fun hc => h hc.symm
      simp [upsertIndicator, findByDate, newIndicatorRecord_date, h, h']
  | cons r rest ih =>
    by_cases hr : r.date = d
    · by_cases h : d'' = d
      · subst h
        simp [upsertIndicator, findByDate, hr, mergeFields_date]
      · have h' : ¬d = d'' := fun hc => h hc.symm
        simp [upsertIndicator, findByDate, hr, mergeFields_date, h, h']
    · by_cases h : d'' = d
      · subst h
        simp [upsertIndicator, findByDate, hr, ih]
      · by_cases h2 : r.date = d''
        · simp [upsertIndicator, findByDate, hr, h2, h]
        · simp [upsertIndicator, findByDate, hr, h2, h, ih]

/-- Every row of the upserted store has either the upserted date or a date
already present in the store. -/
lemma mem_upsert_date {db : List IndicatorRecord} {d : CalDate} {vs : Fields}
    {t : ℚ} {x : IndicatorRecord}
    (hx : x ∈ upsertIndicator db d vs t) :
    x.date = d ∨ x.date ∈ db.map (fun r => r.date) := by
  induction db with
  | nil =>
    simp [upsertIndicator] at hx
    subst hx
    exact Or.inl rfl
  | cons r rest ih =>
    by_cases hr : r.date = d
    · simp [upsertIndicator, hr] at hx
      rcases hx with hx | hx
      · subst hx
        exact Or.inl (by rw [mergeFields_date, hr])
      · exact Or.inr (by simp [List.mem_map]; exact Or.inr ⟨x, hx, rfl⟩)
    · simp [upsertIndicator, hr] at hx
      rcases hx with hx | hx
      · subst hx
        simp
      · rcases ih hx with h | h
        · exact Or.inl h
        · simp at h ⊢
          tauto

/-- The upsert preserves the at-most-one-row-per-date invariant. -/
lemma upsert_pairwise {db : List IndicatorRecord} {d : CalDate} {vs : Fields}
    {t : ℚ}
    (hU : db.Pairwise (fun a b => a.date ≠ b.date)) :
    (upsertIndicator db d vs t).Pairwise (fun a b => a.date ≠ b.date) := by
  induction db with
  | nil => simp [upsertIndicator]
  | cons r rest ih =>
    rcases List.pairwise_cons.mp hU with ⟨hhead, htail⟩
    by_cases hr : r.date = d
    · simp only [upsertIndicator, if_pos hr]
      refine List.pairwise_cons.mpr ⟨?_, htail⟩
      intro y hy
      rw [mergeFields_date]
      exact hhead y hy
    · simp only [upsertIndicator, if_neg hr]
      refine List.pairwise_cons.mpr ⟨?_, ih htail⟩
      intro y hy
      rcases mem_upsert_date hy with h | h
      · rw [h]
        exact hr
      · rcases List.mem_map.mp h with ⟨z, hz, hzd⟩
        rw [← hzd]
        exact hhead z hz

/-- C6: the indicator upsert preserves the at-most-one-row-per-date
invariant; rows at other dates are untouched; when a row exists at the
date, exactly the incoming keys are overwritten (absent keys keep their
prior value, so no populated field is nulled, and date and creation
timestamp are preserved); when none exists, a fresh row is inserted with
exactly the incoming keys set and the rest null. -/
theorem indicator_upsert_frame (db : List IndicatorRecord) (d : CalDate)
    (vs : Fields) (t : ℚ)
    (hU : db.Pairwise (fun a b => a.date ≠ b.date)) :
    (upsertIndicator db d vs t).Pairwise (fun a b => a.date ≠ b.date) ∧
    (∀ d', d' ≠ d →
      findByDate (upsertIndicator db d vs t) d' = findByDate db d') ∧
    (∀ r, findByDate db d = some r →
      findByDate (upsertIndicator db d vs t) d = some (mergeFields r vs t) ∧
      (∀ f, (mergeFields r vs t).get f =
        match vs.get f with
        | some v => some v
        | none => r.get f) ∧
      (∀ f, r.get f ≠ none → (mergeFields r vs t).get f ≠ none) ∧
      (mergeFields r vs t).date = r.date ∧
      (mergeFields r vs t).created_at = r.created_at) ∧
    (findByDate db d = none →
      findByDate (upsertIndicator db d vs t) d =
        some (newIndicatorRecord d vs t) ∧
      (newIndicatorRecord d vs t).date = d ∧
      ∀ f, (newIndicatorRecord d vs t).get f = vs.get f) := by
  refine ⟨upsert_pairwise hU, ?_, ?_, ?_⟩
  · intro d' hd'
    rw [findByDate_upsert, if_neg hd']
  · intro r hr
    refine ⟨?_, mergeFields_get r vs t, ?_, mergeFields_date r vs t,
      mergeFields_created_at r vs t⟩
    · rw [findByDate_upsert, if_pos rfl, hr]
    · intro f hf
      rw [mergeFields_get]
      cases hvf : vs.get f
      · simpa [hvf] using hf
      · simp [hvf]
  · intro hnone
    refine ⟨?_, newIndicatorRecord_date d vs t, newIndicatorRecord_get d vs t⟩
    rw [findByDate_upsert, if_pos rfl, hnone]

/-- Witness for C6: upserting `{federal_funds_rate: 5}` at 2024-01-05 into a
one-row store holding 2024-01-02. -/
theorem indicator_upsert_frame_witness :
    (upsertIndicator
        [{ date := ⟨2024, 1, 2⟩, inflation_rate := some 3,
           created_at := 0, updated_at := 0 }]
        ⟨2024, 1, 5⟩ { federal_funds_rate := some 5 } 1).Pairwise
      (fun a b => a.date ≠ b.date) ∧
    (∀ d', d' ≠ (⟨2024, 1, 5⟩ : CalDate) →
      findByDate
          (upsertIndicator
            [{ date := ⟨2024, 1, 2⟩, inflation_rate := some 3,
               created_at := 0, updated_at := 0 }]
            ⟨2024, 1, 5⟩ { federal_funds_rate := some 5 } 1) d' =
        findByDate
          [{ date := ⟨2024, 1, 2⟩, inflation_rate := some 3,
             created_at := 0, updated_at := 0 }] d') ∧
    (∀ r, findByDate
        [{ date := ⟨2024, 1, 2⟩, inflation_rate := some 3,
           created_at := 0, updated_at := 0 }] ⟨2024, 1, 5⟩ = some r →
      findByDate
          (upsertIndicator
            [{ date := ⟨2024, 1, 2⟩, inflation_rate := some 3,
               created_at := 0, updated_at := 0 }]
            ⟨2024, 1, 5⟩ { federal_funds_rate := some 5 } 1) ⟨2024, 1, 5⟩ =
        some (mergeFields r { federal_funds_rate := some 5 } 1) ∧
      (∀ f, (mergeFields r { federal_funds_rate := some 5 } 1).get f =
        match Fields.get { federal_funds_rate := some 5 } f with
        | some v => some v
        | none => r.get f) ∧
      (∀ f, r.get f ≠ none →
        (mergeFields r { federal_funds_rate := some 5 } 1).get f ≠ none) ∧
      (mergeFields r { federal_funds_rate := some 5 } 1).date = r.date ∧
      (mergeFields r { federal_funds_rate := some 5 } 1).created_at =
        r.created_at) ∧
    (findByDate
        [{ date := ⟨2024, 1, 2⟩, inflation_rate := some 3,
           created_at := 0, updated_at := 0 }] ⟨2024, 1, 5⟩ = none →
      findByDate
          (upsertIndicator
            [{ date := ⟨2024, 1, 2⟩, inflation_rate := some 3,
               created_at := 0, updated_at := 0 }]
            ⟨2024, 1, 5⟩ { federal_funds_rate := some 5 } 1) ⟨2024, 1, 5⟩ =
        some (newIndicatorRecord ⟨2024, 1, 5⟩ { federal_funds_rate := some 5 } 1) ∧
      (newIndicatorRecord ⟨2024, 1, 5⟩ { federal_funds_rate := some 5 } 1).date =
        ⟨2024, 1, 5⟩ ∧
      ∀ f, (newIndicatorRecord ⟨2024, 1, 5⟩
          { federal_funds_rate := some 5 } 1).get f =
        Fields.get { federal_funds_rate := some 5 } f) :=
  indicator_upsert_frame
    [{ date := ⟨2024, 1, 2⟩, inflation_rate := some 3,
       created_at := 0, updated_at := 0 }]
    ⟨2024, 1, 5⟩ { federal_funds_rate := some 5 } 1 (by simp)

/-- C1: `update_all_data` reports `'success'` exactly when neither step
invocation raised (no entry in `errors`), `'partial'` exactly when some step
raised and some step returned a result reporting `'success'`, and `'failed'`
exactly when some step raised and no step reported success; in particular a
raising step beside a succeeding step gives `'partial'` and two raising
steps give `'failed'`. -/
theorem update_all_data_status_rule (econ stock : StepOutcome) :
    ((update_all_data econ stock).status = "success" ↔
      ¬stepRaised econ ∧ ¬stepRaised stock) ∧
    ((update_all_data econ stock).status = "partial" ↔
      (stepRaised econ ∨ stepRaised stock) ∧
      (stepReportedSuccess econ ∨ stepReportedSuccess stock)) ∧
    ((update_all_data econ stock).status = "failed" ↔
      (stepRaised econ ∨ stepRaised stock) ∧
      ¬stepReportedSuccess econ ∧ ¬stepReportedSuccess stock) ∧
    (∀ e (r : StepResult), r.status = "success" →
      (update_all_data (Except.error e) (Except.ok r)).status = "partial" ∧
      (update_all_data (Except.ok r) (Except.error e)).status = "partial") ∧
    (∀ e1 e2,
      (update_all_data (Except.error e1) (Except.error e2)).status = "failed") := by
  have inst1 : ∀ e (r : StepResult), r.status = "success" →
      (update_all_data (Except.error e) (Except.ok r)).status = "partial" ∧
      (update_all_data (Except.ok r) (Except.error e)).status = "partial" := by
    intro e r hr
    constructor <;> simp [update_all_data, Except.toOption, hr]
  have inst2 : ∀ e1 e2,
      (update_all_data (Except.error e1) (Except.error e2)).status = "failed" := by
    intro e1 e2
    simp [update_all_data, Except.toOption]
  refine ⟨?_, ?_, ?_, inst1, inst2⟩ <;>
  · cases econ with
    | ok r1 =>
      cases stock with
      | ok r2 => simp [update_all_data, Except.toOption, stepRaised, stepReportedSuccess]
      | error e2 =>
        by_cases hs : r1.status = "success" <;>
          simp [update_all_data, Except.toOption, stepRaised, stepReportedSuccess, hs]
    | error e1 =>
      cases stock with
      | ok r2 =>
        by_cases hs : r2.status = "success" <;>
          simp [update_all_data, Except.toOption, stepRaised, stepReportedSuccess, hs]
      | error e2 => simp [update_all_data, Except.toOption, stepRaised, stepReportedSuccess]

/-- The YoY loop over well-formed pairs (both values parse, baseline
nonzero) emits exactly one point per pair, in order. -/
lemma yoy_fold_ok (pairs : List (RawObs × RawObs))
    (h : ∀ pr ∈ pairs,
      (∃ c, pr.1.value = some c) ∧ ∃ a, pr.2.value = some a ∧ a ≠ 0) :
    ∀ init : List YoYPoint,
      pairs.foldlM
        (fun result pair => do
          let pt ← yoyStep pair.1 pair.2
          return result ++ pt.toList) init =
      Except.ok (init ++ pairs.map (fun pair =>
        ⟨pair.1.date,
         pyRound2 ((pair.1.value.getD 0 - pair.2.value.getD 0) /
           pair.2.value.getD 0 * 100)⟩)) := by
  induction pairs with
  | nil =>
    intro init
    simp only [List.foldlM_nil, List.map_nil, List.append_nil]
    rfl
  | cons pr rest ih =>
    intro init
    obtain ⟨⟨c, hc⟩, a, ha, ha0⟩ := h pr (List.mem_cons_self pr rest)
    have hstep : yoyStep pr.1 pr.2 =
        Except.ok (some ⟨pr.1.date, pyRound2 ((c - a) / a * 100)⟩) := by
      simp [yoyStep, hc, ha, ha0]
    have hrest := ih (fun x hx => h x (List.mem_cons_of_mem pr hx))
      (init ++ [⟨pr.1.date, pyRound2 ((c - a) / a * 100)⟩])
    rw [List.foldlM_cons, hstep]
    exact hrest.trans (by simp [hc, ha, List.append_assoc])

/-- C9 (amended): on observations whose values all parse and are nonzero
(a zero 12-ago baseline instead aborts the computation, see C2), the YoY
calculator returns exactly one output point per index `i ≥ 12` — `obs[i]`
paired positionally with `obs[i-12]` — carrying `obs[i]`'s date and the
rounded percentage change; for fewer than 13 observations the pair list is
empty, so the result is the empty sequence. -/
theorem yoy_characterization (observations : List RawObs)
    (h : ∀ o ∈ observations, ∃ v : ℚ, o.value = some v ∧ v ≠ 0) :
    calculate_cpi_yoy_change observations =
      Except.ok (((observations.drop 12).zip observations).map
        (fun pair =>
          ⟨pair.1.date,
           pyRound2 ((pair.1.value.getD 0 - pair.2.value.getD 0) /
             pair.2.value.getD 0 * 100)⟩)) := by
  unfold calculate_cpi_yoy_change
  by_cases h12 : observations.length < 12
  · rw [if_pos h12]
    have hd : observations.drop 12 = [] := List.drop_eq_nil_of_le (by omega)
    simp [hd]
  · rw [if_neg h12]
    have hp : ∀ pr ∈ (observations.drop 12).zip observations,
        (∃ c, pr.1.value = some c) ∧ ∃ a, pr.2.value = some a ∧ a ≠ 0 := by
      intro pr hpr
      obtain ⟨p1, p2⟩ := pr
      obtain ⟨h1, h2⟩ := List.of_mem_zip hpr
      obtain ⟨v1, hv1, hv10⟩ := h p1 (List.mem_of_mem_drop h1)
      obtain ⟨v2, hv2, hv20⟩ := h p2 h2
      exact ⟨⟨v1, hv1⟩, v2, hv2, hv20⟩
    simpa using yoy_fold_ok ((observations.drop 12).zip observations) hp []

/-- Witness for C9: 13 monthly points, the first twelve at 100 and the last
at 110, yield exactly one output point carrying the 13th date and the value
`10.0`. -/
theorem yoy_characterization_witness :
    calculate_cpi_yoy_change
        [⟨some ⟨2023, 1, 1⟩, some 100⟩, ⟨some ⟨2023, 2, 1⟩, some 100⟩,
         ⟨some ⟨2023, 3, 1⟩, some 100⟩, ⟨some ⟨2023, 4, 1⟩, some 100⟩,
         ⟨some ⟨2023, 5, 1⟩, some 100⟩, ⟨some ⟨2023, 6, 1⟩, some 100⟩,
         ⟨some ⟨2023, 7, 1⟩, some 100⟩, ⟨some ⟨2023, 8, 1⟩, some 100⟩,
         ⟨some ⟨2023, 9, 1⟩, some 100⟩, ⟨some ⟨2023, 10, 1⟩, some 100⟩,
         ⟨some ⟨2023, 11, 1⟩, some 100⟩, ⟨some ⟨2023, 12, 1⟩, some 100⟩,
         ⟨some ⟨2024, 1, 1⟩, some 110⟩] =
      Except.ok [⟨some ⟨2024, 1, 1⟩, 10⟩] := by
  have h := yoy_characterization
    [⟨some ⟨2023, 1, 1⟩, some 100⟩, ⟨some ⟨2023, 2, 1⟩, some 100⟩,
     ⟨some ⟨2023, 3, 1⟩, some 100⟩, ⟨some ⟨2023, 4, 1⟩, some 100⟩,
     ⟨some ⟨2023, 5, 1⟩, some 100⟩, ⟨some ⟨2023, 6, 1⟩, some 100⟩,
     ⟨some ⟨2023, 7, 1⟩, some 100⟩, ⟨some ⟨2023, 8, 1⟩, some 100⟩,
     ⟨some ⟨2023, 9, 1⟩, some 100⟩, ⟨some ⟨2023, 10, 1⟩, some 100⟩,
     ⟨some ⟨2023, 11, 1⟩, some 100⟩, ⟨some ⟨2023, 12, 1⟩, some 100⟩,
     ⟨some ⟨2024, 1, 1⟩, some 110⟩]
    (by
      intro o ho
      fin_cases ho <;> exact ⟨_, rfl, by norm_num⟩)
  rw [h]
  norm_num [pyRound2, roundHalfEven]

/-- C9 counterexample: a 13-observation input (so `n ≥ 13`) whose
12-periods-ago baseline is zero makes the calculator raise
`ZeroDivisionError` instead of returning a sequence, so it does not emit
one output point per index `i ≥ 12` as the claim states for every such
input. -/
theorem yoy_characterization_cex :
    ([⟨some ⟨2022, 1, 1⟩, some 0⟩, ⟨some ⟨2022, 2, 1⟩, some 50⟩,
      ⟨some ⟨2022, 3, 1⟩, some 50⟩, ⟨some ⟨2022, 4, 1⟩, some 50⟩,
      ⟨some ⟨2022, 5, 1⟩, some 50⟩, ⟨some ⟨2022, 6, 1⟩, some 50⟩,
      ⟨some ⟨2022, 7, 1⟩, some 50⟩, ⟨some ⟨2022, 8, 1⟩, some 50⟩,
      ⟨some ⟨2022, 9, 1⟩, some 50⟩, ⟨some ⟨2022, 10, 1⟩, some 50⟩,
      ⟨some ⟨2022, 11, 1⟩, some 50⟩, ⟨some ⟨2022, 12, 1⟩, some 50⟩,
      ⟨some ⟨2023, 1, 1⟩, some 75⟩] : List RawObs).length = 13 ∧
    ¬ ∃ pts : List YoYPoint,
      calculate_cpi_yoy_change
          [⟨some ⟨2022, 1, 1⟩, some 0⟩, ⟨some ⟨2022, 2, 1⟩, some 50⟩,
           ⟨some ⟨2022, 3, 1⟩, some 50⟩, ⟨some ⟨2022, 4, 1⟩, some 50⟩,
           ⟨some ⟨2022, 5, 1⟩, some 50⟩, ⟨some ⟨2022, 6, 1⟩, some 50⟩,
           ⟨some ⟨2022, 7, 1⟩, some 50⟩, ⟨some ⟨2022, 8, 1⟩, some 50⟩,
           ⟨some ⟨2022, 9, 1⟩, some 50⟩, ⟨some ⟨2022, 10, 1⟩, some 50⟩,
           ⟨some ⟨2022, 11, 1⟩, some 50⟩, ⟨some ⟨2022, 12, 1⟩, some 50⟩,
           ⟨some ⟨2023, 1, 1⟩, some 75⟩] = Except.ok pts := by
  constructor
  · rfl
  · rintro ⟨pts, h⟩
    rw [show calculate_cpi_yoy_change
        [⟨some ⟨2022, 1, 1⟩, some 0⟩, ⟨some ⟨2022, 2, 1⟩, some 50⟩,
         ⟨some ⟨2022, 3, 1⟩, some 50⟩, ⟨some ⟨2022, 4, 1⟩, some 50⟩,
         ⟨some ⟨2022, 5, 1⟩, some 50⟩, ⟨some ⟨2022, 6, 1⟩, some 50⟩,
         ⟨some ⟨2022, 7, 1⟩, some 50⟩, ⟨some ⟨2022, 8, 1⟩, some 50⟩,
         ⟨some ⟨2022, 9, 1⟩, some 50⟩, ⟨some ⟨2022, 10, 1⟩, some 50⟩,
         ⟨some ⟨2022, 11, 1⟩, some 50⟩, ⟨some ⟨2022, 12, 1⟩, some 50⟩,
         ⟨some ⟨2023, 1, 1⟩, some 75⟩] =
      Except.error PyExc.zeroDivisionError from rfl] at h
    exact Except.noConfusion h

/-- Dictionary semantics of `setField`: the written date now holds the
updated field map, every other date is untouched. -/
lemma lookupAcc_setField (acc : AccMap) (d : CalDate) (f : FieldName) (v : ℚ)
    (d'' : CalDate) :
    lookupAcc (setField acc d f v) d'' =
      if d'' = d then some (((lookupAcc acc d).getD Fields.empty).set f v)
      else lookupAcc acc d'' := by
  induction acc with
  | nil =>
    by_cases h : d'' = d
    · subst h
      simp [setField, lookupAcc]
    · have h' : ¬d = d'' := fun hc => h hc.symm
      simp [setField, lookupAcc, h, h']
  | cons e rest ih =>
    obtain ⟨d0, fs0⟩ := e
    by_cases h0 : d0 = d
    · subst h0
      by_cases h : d'' = d0
      · subst h
        simp [setField, lookupAcc]
      · have h' : ¬d0 = d'' := fun hc => h hc.symm
        simp [setField, lookupAcc, h, h']
    · by_cases h : d'' = d
      · subst h
        have h0' : ¬d0 = d'' := h0
        simp [setField, lookupAcc, h0, h0', ih]
      · by_cases h2 : d0 = d''
        · simp [setField, lookupAcc, h0, h2, h]
        · simp [setField, lookupAcc, h0, h2, h, ih]

/-- Writing a non-GDP field never touches `global_gdp_growth`. -/
lemma set_gdp_other (fs : Fields) (f : FieldName) (v : ℚ)
    (hf : f ≠ FieldName.global_gdp_growth) :
    (fs.set f v).global_gdp_growth = fs.global_gdp_growth := by
  cases f
  · exact absurd rfl hf
  all_goals rfl

/-- `gdpAt` is invariant under a non-GDP field write. -/
lemma gdpAt_setField_other (acc : AccMap) (d : CalDate) (f : FieldName)
    (v : ℚ) (d'' : CalDate) (hf : f ≠ FieldName.global_gdp_growth) :
    gdpAt (setField acc d f v) d'' = gdpAt acc d'' := by
  unfold gdpAt
  rw [lookupAcc_setField]
  by_cases h : d'' = d
  · subst h
    cases hl : lookupAcc acc d'' with
    | none => simp [hl, set_gdp_other _ _ _ hf, Fields.empty]
    | some fs => simp [hl, set_gdp_other _ _ _ hf]
  · rw [if_neg h]

/-- `gdpAt` after a GDP field write. -/
lemma gdpAt_setField_gdp (acc : AccMap) (d : CalDate) (v : ℚ)
    (d'' : CalDate) :
    gdpAt (setField acc d FieldName.global_gdp_growth v) d'' =
      if d'' = d then some v else gdpAt acc d'' := by
  unfold gdpAt
  rw [lookupAcc_setField]
  by_cases h : d'' = d
  · simp [h, Fields.set]
  · simp [h]

/-- The higher-frequency observation loops never touch `global_gdp_growth`. -/
lemma gdpAt_processSeries (acc : AccMap) (obs : List RawObs) (f : FieldName)
    (hf : f ≠ FieldName.global_gdp_growth) (d : CalDate) :
    gdpAt (processSeries acc obs f) d = gdpAt acc d := by
  induction obs generalizing acc with
  | nil => rfl
  | cons o rest ih =>
    obtain ⟨od, ov⟩ := o
    cases od with
    | none => exact ih acc
    | some d0 =>
      cases ov with
      | none => exact ih acc
      | some v0 =>
        exact (ih (setField acc d0 f v0)).trans
          (gdpAt_setField_other acc d0 f v0 d hf)

/-- The annual loop leaves at each date the last matching annual point's
value, defaulting to whatever was there before. -/
lemma gdpAt_annualObs (acc : AccMap) (ps : List GdpPoint) (d : CalDate) :
    gdpAt (annualObs acc ps) d = (annualValueAt ps d).or (gdpAt acc d) := by
  induction ps generalizing acc with
  | nil => rfl
  | cons p ps ih =>
    simp only [annualObs, List.foldl_cons] at *
    by_cases hv : validYear p.year
    · rw [if_pos hv]
      have h1 := ih (setField acc (annualDate p.year) FieldName.global_gdp_growth p.value)
      rw [h1, gdpAt_setField_gdp]
      cases hA : annualValueAt ps d with
      | some w => simp [annualValueAt, hA]
      | none =>
        by_cases hd : d = annualDate p.year
        · subst hd
          simp [annualValueAt, hA, hv]
        · have hd' : ¬annualDate p.year = d := fun hc => hd hc.symm
          simp [annualValueAt, hA, hv, hd, hd']
    · rw [if_neg hv]
      rw [ih acc]
      cases hA : annualValueAt ps d with
      | some w => simp [annualValueAt, hA]
      | none => simp [annualValueAt, hA, hv]

/-- Lookup commutes with a value-wise map of the accumulator. -/
lemma lookupAcc_map_value (g : Fields → Fields) (acc : AccMap) (d : CalDate) :
    lookupAcc (acc.map (fun e => (e.1, g e.2))) d = (lookupAcc acc d).map g := by
  induction acc with
  | nil => rfl
  | cons e rest ih =>
    obtain ⟨d0, fs0⟩ := e
    by_cases h : d0 = d
    · simp [lookupAcc, h]
    · simp [lookupAcc, h, ih]

/-- Looking up any date after the forward fill: the date's
`global_gdp_growth` is what the accumulator held, defaulting to the latest
value. -/
lemma lookup_forwardFill_gdp (acc : AccMap) (latest : Option ℚ) (d : CalDate)
    (fs : Fields)
    (h : lookupAcc (forwardFill acc latest) d = some fs) :
    fs.global_gdp_growth = (gdpAt acc d).or latest := by
  cases latest with
  | none =>
    have h' : lookupAcc acc d = some fs := h
    have hg : gdpAt acc d = fs.global_gdp_growth := by simp [gdpAt, h']
    rw [hg]
    cases fs.global_gdp_growth <;> rfl
  | some v =>
    have h' : lookupAcc (acc.map (fun e => (e.1, fillOne v e.2))) d = some fs := h
    rw [lookupAcc_map_value] at h'
    cases hl : lookupAcc acc d with
    | none =>
      rw [hl] at h'
      simp at h'
    | some fs0 =>
      rw [hl] at h'
      simp only [Option.map_some'] at h'
      obtain rfl : fillOne v fs0 = fs := Option.some.inj h'
      have hg : gdpAt acc d = fs0.global_gdp_growth := by simp [gdpAt, hl]
      rw [hg]
      unfold fillOne
      by_cases h0 : fs0.global_gdp_growth = none
      · rw [if_pos h0, h0]
        rfl
      · rw [if_neg h0]
        cases hx : fs0.global_gdp_growth with
        | none => exact absurd hx h0
        | some w => rfl

/-- C4: in the reconciled accumulator, every present date's
`global_gdp_growth` is the value of the exact-date annual point when one of
the last five fetched annual points lands on that date (last write wins),
and otherwise the single most recent global-GDP value over all fetched
points (maximum by year) — in particular dates populated only by the
higher-frequency series receive the latest annual value. -/
theorem forward_fill_global_gdp (fed_rates inflation_data gdp_data : List RawObs)
    (global_gdp : List GdpPoint) (d : CalDate) (fs : Fields)
    (h : lookupAcc (buildDataByDate fed_rates inflation_data gdp_data global_gdp) d
        = some fs) :
    fs.global_gdp_growth =
      (annualValueAt (lastN 5 global_gdp) d).or (latestGdpValue global_gdp) := by
  have hacc3 : gdpAt
      (processSeries
        (processSeries
          (processSeries [] (lastN 12 fed_rates) FieldName.federal_funds_rate)
          (lastN 12 inflation_data) FieldName.inflation_rate)
        (lastN 8 gdp_data) FieldName.us_gdp_growth) d = none := by
    rw [gdpAt_processSeries _ _ _ (by decide) d,
      gdpAt_processSeries _ _ _ (by decide) d,
      gdpAt_processSeries _ _ _ (by decide) d]
    rfl
  have hfill := lookup_forwardFill_gdp
    (annualObs
      (processSeries
        (processSeries
          (processSeries [] (lastN 12 fed_rates) FieldName.federal_funds_rate)
          (lastN 12 inflation_data) FieldName.inflation_rate)
        (lastN 8 gdp_data) FieldName.us_gdp_growth)
      (lastN 5 global_gdp))
    (latestGdpValue global_gdp) d fs h
  rw [gdpAt_annualObs, hacc3] at hfill
  rw [hfill]
  cases annualValueAt (lastN 5 global_gdp) d <;> rfl

/-- Witness for C4 on the specification's example: annual points
`{2022: 2.5, 2023: 3.0}` and one federal-funds date `2023-05-01` from a
higher-frequency series; the emitted row at that date carries
`global_gdp_growth = 3`. -/
theorem forward_fill_global_gdp_witness :
    (⟨some 3, none, some 5, none⟩ : Fields).global_gdp_growth =
      (annualValueAt (lastN 5 [⟨2022, 5/2⟩, ⟨2023, 3⟩]) ⟨2023, 5, 1⟩).or
        (latestGdpValue [⟨2022, 5/2⟩, ⟨2023, 3⟩]) :=
  forward_fill_global_gdp [⟨some ⟨2023, 5, 1⟩, some 5⟩] [] []
    [⟨2022, 5/2⟩, ⟨2023, 3⟩] ⟨2023, 5, 1⟩ ⟨some 3, none, some 5, none⟩ rfl

end Dashboard
